import Mathlib

/-!
# Polygraph signal-detection core: a verification development

The repository's frontend (`frontend/src/lib/api.ts` and the signal pages)
consumes `Signal` records produced by a Python backend detection core
(`backend/src/signals/`), which is documented in detail in the project's
design specification (baseline store, three detectors, scorer, orchestrator)
but whose implementation files are not part of the material at hand.
The core is therefore modelled here from the specification, faithfully to
its words; the frontend utility `formatVolume` is embedded directly from
`frontend/src/lib/api.ts`.

All numeric quantities are modelled over `ℚ` (the backend uses Python
floats; the rational model makes the intended real-number algebra exact,
so "equal within floating-point epsilon" becomes exact equality).
Recall that in Lean, `x / 0 = 0` on `ℚ`.
-/

namespace Polygraph

/-- A single timestamped observation of a market's price/volume/orderbook
state.  Modelled from the spec, §3: `MarketSnapshot` with attributes
market_id, timestamp, yes_price, no_price, volume, bid_depth, ask_depth.
Timestamps are in seconds. -/
structure MarketSnapshot where
  market_id : String
  timestamp : ℚ
  yes_price : ℚ
  no_price : ℚ
  volume : ℚ
  bid_depth : ℚ
  ask_depth : ℚ
  deriving DecidableEq, Repr

/-- Modelled from the spec, §6: `DetectorConfig`, loaded once at startup.
Recognized options and defaults are listed in §6; the fields after
`max_tracked_markets` are the auxiliary thresholds §4.2–§4.4 mention
without naming (the zero-std absolute floor, the imbalance epsilon, the
price-divergence proportionality floor, surge threshold and small band). -/
structure DetectorConfig where
  volume_spike_threshold : ℚ
  volume_minimum : ℚ
  imbalance_threshold : ℚ
  imbalance_minimum : ℚ
  price_change_threshold : ℚ
  baseline_window_hours : ℚ
  minimum_samples : ℕ
  max_tracked_markets : ℕ
  zero_std_floor : ℚ
  epsilon : ℚ
  volume_proportionality_floor : ℚ
  volume_surge_threshold : ℚ
  price_band : ℚ
  deriving DecidableEq, Repr

/-- The defaults of spec §6: volume_spike_threshold 2.5, volume_minimum
10000, imbalance_threshold 3.0, imbalance_minimum 5000,
price_change_threshold 0.05, baseline_window_hours 24, minimum_samples 5,
MAX_TRACKED_MARKETS 50. -/
def defaultConfig : DetectorConfig where
  volume_spike_threshold := 5 / 2
  volume_minimum := 10000
  imbalance_threshold := 3
  imbalance_minimum := 5000
  price_change_threshold := 1 / 20
  baseline_window_hours := 24
  minimum_samples := 5
  max_tracked_markets := 50
  zero_std_floor := 1000
  epsilon := 1 / 1000000000
  volume_proportionality_floor := 1 / 2
  volume_surge_threshold := 2
  price_band := 1 / 100

/-- Spec §7: `ConfigError` — invalid threshold configuration (negative
threshold, zero window) is fatal at startup, so evaluation only ever runs
under a valid configuration.  Validity asks every threshold, floor and the
window to be positive (minima may be zero). -/
def DetectorConfig.valid (cfg : DetectorConfig) : Prop :=
  0 < cfg.volume_spike_threshold ∧ 0 ≤ cfg.volume_minimum ∧
  0 < cfg.imbalance_threshold ∧ 0 ≤ cfg.imbalance_minimum ∧
  0 < cfg.price_change_threshold ∧ 0 < cfg.baseline_window_hours ∧
  0 < cfg.minimum_samples ∧ 0 < cfg.max_tracked_markets ∧
  0 < cfg.zero_std_floor ∧ 0 < cfg.epsilon ∧
  0 < cfg.volume_surge_threshold ∧ 0 < cfg.price_band

instance (cfg : DetectorConfig) : Decidable cfg.valid := by
  unfold DetectorConfig.valid; infer_instance

/-!
## Baseline Store (spec §4.1)

Modelled from the spec: the store keeps, per market, a bounded
time-ordered window of volume/price observations (oldest first) together
with incrementally maintained summary statistics.  Mean/variance are kept
Welford-style: `mean` and `m2` (the sum of squared deviations from the
mean), updated in O(1) on insertion, and adjusted incrementally on
eviction of the oldest samples.
-/

/-- One retained observation in a market's rolling window. -/
structure Sample where
  timestamp : ℚ
  volume : ℚ
  price : ℚ
  deriving DecidableEq, Repr

/-- Welford-style running statistics: sample count, running mean, and
`m2`, the running sum of squared deviations from the mean. -/
structure WelfordState where
  count : ℕ
  mean : ℚ
  m2 : ℚ
  deriving DecidableEq, Repr

/-- The empty statistics (no samples). -/
def WelfordState.zero : WelfordState := ⟨0, 0, 0⟩

/-- Modelled from the spec, §4.1/§9: Welford's incremental update.
Adds one observation in O(1):
`delta = x - mean; mean += delta/count'; m2 += delta * (x - mean')`. -/
def welfordAdd (st : WelfordState) (x : ℚ) : WelfordState :=
  let n := st.count + 1
  let delta := x - st.mean
  let mean := st.mean + delta / n
  ⟨n, mean, st.m2 + delta * (x - mean)⟩

/-- Modelled from the spec, §4.1: the matching incremental removal used on
eviction ("eviction must also incrementally adjust mean/variance, not just
drop and fully recompute").  Removing observation `x`:
`mean' = (count * mean - x) / (count - 1); m2' = m2 - (x - mean) * (x - mean')`;
removing the last sample resets the statistics. -/
def welfordRemove (st : WelfordState) (x : ℚ) : WelfordState :=
  if st.count ≤ 1 then WelfordState.zero
  else
    let n := st.count - 1
    let mean := ((st.count : ℚ) * st.mean - x) / n
    ⟨n, mean, st.m2 - (x - st.mean) * (x - mean)⟩

/-- Spec §3: `RollingBaseline` — the per-market rolling window (oldest
sample first) plus its summary statistics for volume and price, and the
last-seen timestamp. -/
structure RollingBaseline where
  samples : List Sample
  volStats : WelfordState
  priceStats : WelfordState
  last_timestamp : ℚ
  deriving DecidableEq, Repr

/-- Modelled from the spec, §4.1: evict, from the front of the
time-ordered window, every sample strictly older than the cutoff,
incrementally removing each from both volume and price statistics. -/
def evictLoop (cutoff : ℚ) :
    List Sample → WelfordState → WelfordState →
    List Sample × WelfordState × WelfordState
  | [], v, p => ([], v, p)
  | s :: rest, v, p =>
      if s.timestamp < cutoff then
        evictLoop cutoff rest (welfordRemove v s.volume) (welfordRemove p s.price)
      else (s :: rest, v, p)

/-- Modelled from the spec, §4.1: one accepted update — evict samples
older than the lookback window (measured from the new snapshot's
timestamp), then append the new observation and fold it into the
statistics Welford-style. -/
def updateBaseline (cfg : DetectorConfig) (b : RollingBaseline)
    (s : MarketSnapshot) : RollingBaseline :=
  let cutoff := s.timestamp - cfg.baseline_window_hours * 3600
  let r := evictLoop cutoff b.samples b.volStats b.priceStats
  { samples := r.1 ++ [⟨s.timestamp, s.volume, s.yes_price⟩]
    volStats := welfordAdd r.2.1 s.volume
    priceStats := welfordAdd r.2.2 s.yes_price
    last_timestamp := s.timestamp }

/-- A fresh baseline holding only the given snapshot. -/
def newBaseline (cfg : DetectorConfig) (s : MarketSnapshot) : RollingBaseline :=
  updateBaseline cfg ⟨[], WelfordState.zero, WelfordState.zero, s.timestamp⟩ s

/-- The Baseline Store: one `RollingBaseline` per tracked market. -/
abbrev BaselineStore : Type := List (String × RollingBaseline)

/-- The store before any update. -/
def emptyStore : BaselineStore := []

/-- Look a market's baseline up in the store. -/
def findBaseline : BaselineStore → String → Option RollingBaseline
  | [], _ => none
  | (k, b) :: rest, id => if k = id then some b else findBaseline rest id

/-- Replace a market's baseline in the store (keeping all other entries). -/
def setBaseline : BaselineStore → String → RollingBaseline → BaselineStore
  | [], _, _ => []
  | (k, b) :: rest, id, b2 =>
      if k = id then (k, b2) :: rest else (k, b) :: setBaseline rest id b2

/-- Spec §7: the per-snapshot conditions the store reports to the caller. -/
inductive UpdateError where
  | outOfOrderSnapshot
  | capacityExceeded
  deriving DecidableEq, Repr

/-- Modelled from the spec, §4.1/§5/§7: `update(market_id, snapshot)`.
For a tracked market, a snapshot older than the baseline's last-seen
timestamp is dropped with `OutOfOrderSnapshot` and the store is returned
unchanged; otherwise the baseline is updated.  For a new market, if the
store already holds `max_tracked_markets` baselines the update is rejected
with `CapacityExceeded` and no baseline is created; otherwise a fresh
baseline is appended.  The returned pair is (result, resulting store). -/
def updateStore (cfg : DetectorConfig) (store : BaselineStore)
    (s : MarketSnapshot) : Except UpdateError RollingBaseline × BaselineStore :=
  match findBaseline store s.market_id with
  | some b =>
      if s.timestamp < b.last_timestamp then
        (.error .outOfOrderSnapshot, store)
      else
        let b2 := updateBaseline cfg b s
        (.ok b2, setBaseline store s.market_id b2)
  | none =>
      if cfg.max_tracked_markets ≤ store.length then
        (.error .capacityExceeded, store)
      else
        let b2 := newBaseline cfg s
        (.ok b2, store ++ [(s.market_id, b2)])

/-- Run a whole sequence of snapshots through the store, keeping the
resulting store after each update (rejected updates leave it unchanged). -/
def runUpdates (cfg : DetectorConfig) (store : BaselineStore)
    (snaps : List MarketSnapshot) : BaselineStore :=
  snaps.foldl (fun st s => (updateStore cfg st s).2) store

/-- Modelled from the spec, §4.1: `get(market_id)` returns the baseline,
or `Unavailable` (here `none`) when the market is untracked or has
`sample_count < minimum_samples`. -/
def getBaseline (cfg : DetectorConfig) (store : BaselineStore)
    (id : String) : Option RollingBaseline :=
  match findBaseline store id with
  | none => none
  | some b => if b.volStats.count < cfg.minimum_samples then none else some b

/-!
## From-scratch statistics (the reference semantics for §8's
"matches a from-scratch recomputation over the same retained window")
-/

/-- Sum of squares of a list of rationals. -/
def sumSq (xs : List ℚ) : ℚ := (xs.map (fun x => x * x)).sum

/-- From-scratch mean of a window (0 for the empty window, since
`x / 0 = 0` on `ℚ`). -/
def listMean (xs : List ℚ) : ℚ := xs.sum / xs.length

/-- From-scratch population variance of a window: the mean squared
deviation from the from-scratch mean. -/
def listVariance (xs : List ℚ) : ℚ :=
  (xs.map (fun x => (x - listMean xs) ^ 2)).sum / xs.length

/-- The variance reported by a baseline's incremental statistics. -/
def baselineVariance (b : RollingBaseline) : ℚ :=
  b.volStats.m2 / b.volStats.count

/-- The volumes retained in a baseline's window. -/
def retainedVolumes (b : RollingBaseline) : List ℚ :=
  b.samples.map Sample.volume

/-- The running statistics `st` agree with a from-scratch pass over the
window `xs`: the count is the length, the mean is `sum / count`, and `m2`
is `sumSq - sum^2 / count`. -/
def Tracks (xs : List ℚ) (st : WelfordState) : Prop :=
  st.count = xs.length ∧ st.mean = xs.sum / xs.length ∧
  st.m2 = sumSq xs - xs.sum ^ 2 / xs.length

/-!
## Detectors and scorer (spec §4.2–§4.5)

Modelled from the spec.  The detectors consume the current snapshot plus
the market's baseline statistics (mean volume, std volume, sample count)
as produced by the Baseline Store's `get`; the standard deviation is the
square root of the variance, which is irrational in general, so the
detector layer takes it as an input field (`BaselineStats.std_volume`) and
the orchestrator obtains it through an abstract square-root function.
-/

/-- The closed set of signal types (spec §3, and the union type of
`Signal.signal_type` in `frontend/src/lib/api.ts`). -/
inductive SignalType where
  | volume_spike
  | orderbook_imbalance
  | price_divergence
  deriving DecidableEq, Repr

/-- Spec §9: the per-signal details payload is a fixed tagged variant per
detector type with named fields — spec §4.2–§4.4 enumerate them:
current_volume/mean_volume/z_score for volume spikes;
direction/ratio/bid_depth/ask_depth for orderbook imbalances;
divergence_type and the change percentages for price divergences. -/
inductive SignalDetails where
  | volumeSpike (current_volume mean_volume z_score : ℚ)
  | orderbookImbalance (direction : String) ( ratio bid_depth ask_depth : ℚ)
  | priceDivergence (divergence_type : String)
      (price_change_pct volume_change_pct : ℚ)
  deriving DecidableEq, Repr

/-- The baseline summary a detector consumes: mean volume, std volume
(the square root of the variance), and the sample count. -/
structure BaselineStats where
  mean_volume : ℚ
  std_volume : ℚ
  sample_count : ℕ
  deriving DecidableEq, Repr

/-- A detector's raw result before scoring: its type tag, its raw
anomaly magnitude (z-score, ratio or percentage, spec glossary), and the
details payload. -/
structure RawDetection where
  sigType : SignalType
  magnitude : ℚ
  details : SignalDetails
  deriving DecidableEq, Repr

/-- Modelled from the spec, §4.2 (Volume Spike Detector):
`z = (current_volume - mean_volume) / std_volume`; fires when
`current_volume > mean_volume + threshold_multiplier * std_volume` and
`current_volume >= volume_minimum`; `std_volume == 0` is guarded — then it
fires only when current_volume exceeds the mean by the fixed absolute
floor (still subject to the volume minimum), with the floor standing in
for the vanished std in the magnitude. -/
def detectVolumeSpike (cfg : DetectorConfig) (b : BaselineStats)
    (s : MarketSnapshot) : Option RawDetection :=
  if b.std_volume = 0 then
    if b.mean_volume + cfg.zero_std_floor < s.volume ∧
        cfg.volume_minimum ≤ s.volume then
      let z := (s.volume - b.mean_volume) / cfg.zero_std_floor
      some ⟨.volume_spike, z, .volumeSpike s.volume b.mean_volume z⟩
    else none
  else
    if b.mean_volume + cfg.volume_spike_threshold * b.std_volume < s.volume ∧
        cfg.volume_minimum ≤ s.volume then
      let z := (s.volume - b.mean_volume) / b.std_volume
      some ⟨.volume_spike, z, .volumeSpike s.volume b.mean_volume z⟩
    else none

/-- Modelled from the spec, §4.3 (Orderbook Imbalance Detector):
`ratio = max(bid, ask) / max(min(bid, ask), epsilon)`; fires when
`ratio >= imbalance_threshold` and the larger side is at least
`imbalance_minimum`; `direction` is the larger side. -/
def detectOrderbookImbalance (cfg : DetectorConfig)
    (s : MarketSnapshot) : Option RawDetection :=
  let larger := max s.bid_depth s.ask_depth
  let smaller := min s.bid_depth s.ask_depth
  let ratio := larger / max smaller cfg.epsilon
  if cfg.imbalance_threshold ≤ ratio ∧ cfg.imbalance_minimum ≤ larger then
    let direction := if s.ask_depth ≤ s.bid_depth then "bid" else "ask"
    some ⟨.orderbook_imbalance, ratio,
      .orderbookImbalance direction ratio s.bid_depth s.ask_depth⟩
  else none

/-- Modelled from the spec, §4.4 (Price Divergence Detector): change
percentages over the lookback interval, then two mutually exclusive
sub-cases in order — weak conviction (price moved, volume below the
proportionality floor), then accumulation (volume surged while price
stayed inside a small band). -/
def detectPriceDivergence (cfg : DetectorConfig)
    (s start : MarketSnapshot) : Option RawDetection :=
  let price_change_pct := (s.yes_price - start.yes_price) / start.yes_price
  let volume_change_pct := (s.volume - start.volume) / start.volume
  if cfg.price_change_threshold ≤ |price_change_pct| ∧
      volume_change_pct < cfg.volume_proportionality_floor then
    some ⟨.price_divergence, |price_change_pct|,
      .priceDivergence "weak_conviction" price_change_pct volume_change_pct⟩
  else if cfg.volume_surge_threshold < volume_change_pct ∧
      |price_change_pct| < cfg.price_band then
    some ⟨.price_divergence, volume_change_pct,
      .priceDivergence "accumulation" price_change_pct volume_change_pct⟩
  else none

/-- Clamp a raw severity into the `[0, 100]` score range. -/
def clampScore (x : ℚ) : ℚ := max 0 (min 100 x)

/-- Modelled from the spec, §4.5 (Signal Scorer):
`score(detector_type, raw_magnitude) -> [0, 100]`, a pure, per-type
calibrated, monotonic, capped piecewise-linear mapping: z-scores and
depth ratios scale by 10, change percentages by 200, all saturating
at 100. -/
def scoreSignal : SignalType → ℚ → ℚ
  | .volume_spike, z => clampScore (10 * z)
  | .orderbook_imbalance, r => clampScore (10 * r)
  | .price_divergence, p => clampScore (200 * p)

/-- Spec §3: the `Signal` record — id, market_id, type, timestamp, score,
details, price_at_signal (mirrors the `Signal` interface of
`frontend/src/lib/api.ts`; the numeric id is assigned by the external
persistence sink, so the core leaves it 0). -/
structure Signal where
  id : ℕ
  market_id : String
  signal_type : SignalType
  timestamp : ℚ
  score : ℚ
  details : SignalDetails
  price_at_signal : ℚ
  deriving DecidableEq, Repr

/-- Spec §4.5/§3: assemble the final Signal record for a fired detector.
Its timestamp is the triggering snapshot's timestamp. -/
def mkSignal (s : MarketSnapshot) (d : RawDetection) : Signal where
  id := 0
  market_id := s.market_id
  signal_type := d.sigType
  timestamp := s.timestamp
  score := scoreSignal d.sigType d.magnitude
  details := d.details
  price_at_signal := s.yes_price

/-- Modelled from the spec, §2/§4: one evaluation cycle — run all three
detectors against the snapshot and the market's baseline statistics
(`none` = Unavailable: no signal possible), score each fired detector and
emit the Signal records.  `start` is the interval-start snapshot for the
price-divergence detector (`none` when the market is too new). -/
def evaluateSnapshot (cfg : DetectorConfig) (ob : Option BaselineStats)
    (s : MarketSnapshot) (start : Option MarketSnapshot) : List Signal :=
  match ob with
  | none => []
  | some b =>
      let dets := [detectVolumeSpike cfg b s,
                   detectOrderbookImbalance cfg s,
                   start.bind (fun p => detectPriceDivergence cfg s p)]
      (dets.filterMap id).map (mkSignal s)

/-- Baseline statistics as handed to the detectors: the std is the square
root of the incrementally maintained variance, obtained through the
supplied square-root function (ℚ has no internal square root). -/
def statsOfBaseline (sqrtFn : ℚ → ℚ) (b : RollingBaseline) : BaselineStats :=
  ⟨b.volStats.mean, sqrtFn (baselineVariance b), b.volStats.count⟩

/-- The store-to-detectors pipeline: fetch the market's baseline through
`get` (Unavailable = `none`) and run one evaluation cycle on it. -/
def evaluateWithStore (sqrtFn : ℚ → ℚ) (cfg : DetectorConfig)
    (store : BaselineStore) (s : MarketSnapshot)
    (start : Option MarketSnapshot) : List Signal :=
  evaluateSnapshot cfg
    ((getBaseline cfg store s.market_id).map (statsOfBaseline sqrtFn)) s start

/-- `true` exactly when the details payload is the variant belonging to
the signal's type tag. -/
def detailsMatchType : SignalType → SignalDetails → Bool
  | .volume_spike, .volumeSpike _ _ _ => true
  | .orderbook_imbalance, .orderbookImbalance _ _ _ _ => true
  | .price_divergence, .priceDivergence _ _ _ => true
  | _, _ => false

/-!
## Frontend volume formatting (`frontend/src/lib/api.ts`, `formatVolume`)

Embedded from the source.  JavaScript's `Number.prototype.toFixed(f)`
renders the integer `n` minimising `|n / 10^f - x|`, preferring the larger
`n` on ties; over ℚ that integer is `⌊x * 10^f + 1/2⌋`.
-/

/-- The integer JavaScript's `toFixed` rounds `x * 10^digits` to. -/
def toFixedInt (x : ℚ) (digits : ℕ) : ℤ := ⌊x * 10 ^ digits + 1 / 2⌋

/-- `x.toFixed(1)`: one digit after the decimal point. -/
def toFixed1 (x : ℚ) : String :=
  let n := toFixedInt x 1
  (if n < 0 then "-" else "") ++
    toString (n.natAbs / 10) ++ "." ++ toString (n.natAbs % 10)

/-- `x.toFixed(0)`: rounded to an integer. -/
def toFixed0 (x : ℚ) : String := toString (toFixedInt x 0)

/-- Embedded from `frontend/src/lib/api.ts` lines 175–183: millions as
`$X.XM`, thousands as `$X.XK`, otherwise `$X`. -/
def formatVolume (volume : ℚ) : String :=
  if 1000000 ≤ volume then "$" ++ toFixed1 (volume / 1000000) ++ "M"
  else if 1000 ≤ volume then "$" ++ toFixed1 (volume / 1000) ++ "K"
  else "$" ++ toFixed0 volume

/-- The formatting claim §C10 describes, written with explicit interval
conditions: `M` exactly for `v ≥ 1,000,000`, `K` exactly for
`1,000 ≤ v < 1,000,000`, plain dollars otherwise. -/
def formatVolumeByIntervals (volume : ℚ) : String :=
  if 1000000 ≤ volume then "$" ++ toFixed1 (volume / 1000000) ++ "M"
  else if 1000 ≤ volume ∧ volume < 1000000 then
    "$" ++ toFixed1 (volume / 1000) ++ "K"
  else "$" ++ toFixed0 volume

/-- The baseline statistics are well formed: a standard deviation is never
negative (`Unavailable` carries no statistics at all). -/
def statsNonneg : Option BaselineStats → Prop
  | none => True
  | some b => 0 ≤ b.std_volume

/-!
## Concrete inputs (the worked examples of spec §8)
-/

/-- Spec §8's volume-spike example snapshot: `current_volume = 125000`. -/
def snapVol125 : MarketSnapshot := ⟨"m1", 100, 1/2, 1/2, 125000, 0, 0⟩

/-- The same snapshot with `current_volume = 80000`. -/
def snapVol80 : MarketSnapshot := ⟨"m1", 100, 1/2, 1/2, 80000, 0, 0⟩

/-- Spec §8's example baseline: `mean_volume = 30000, std_volume = 10000`. -/
def statsSpec : BaselineStats := ⟨30000, 10000, 10⟩

/-- Spec §8's orderbook example: `bid_depth = 50000, ask_depth = 5000`. -/
def snapImb : MarketSnapshot := ⟨"m2", 100, 1/2, 1/2, 0, 50000, 5000⟩

/-- The Signal the evaluation cycle emits for `snapVol125` against
`statsSpec` under the default configuration: z = 9.5, score 95. -/
def sigSpike : Signal :=
  ⟨0, "m1", .volume_spike, 100, 95, .volumeSpike 125000 30000 (19/2), 1/2⟩

/-- A first snapshot for market `m1` at timestamp 100. -/
def snapT100 : MarketSnapshot := ⟨"m1", 100, 1/2, 1/2, 20000, 1000, 1000⟩

/-- A stale snapshot for market `m1` at timestamp 50. -/
def snapT50 : MarketSnapshot := ⟨"m1", 50, 1/2, 1/2, 20000, 1000, 1000⟩

/-- A snapshot for a second market `m2`. -/
def snapM2 : MarketSnapshot := ⟨"m2", 100, 1/2, 1/2, 20000, 1000, 1000⟩

/-- A store tracking exactly one market, `m1`, with one retained sample. -/
def storeOne : BaselineStore := [("m1", newBaseline defaultConfig snapT100)]

/-- The default configuration, with the tracking limit lowered to one. -/
def smallConfig : DetectorConfig := { defaultConfig with max_tracked_markets := 1 }

/-!
## Scorer lemmas
-/

theorem clampScore_nonneg (x : ℚ) : 0 ≤ clampScore x := le_max_left 0 _

theorem clampScore_le_100 (x : ℚ) : clampScore x ≤ 100 :=
  max_le (by norm_num) (min_le_left 100 x)

theorem clampScore_mono {x y : ℚ} (h : x ≤ y) : clampScore x ≤ clampScore y :=
  max_le_max le_rfl (min_le_min le_rfl h)

theorem clampScore_pos {x : ℚ} (h : 0 < x) : 0 < clampScore x :=
  lt_max_iff.mpr (Or.inr (lt_min (by norm_num) h))

theorem scoreSignal_nonneg (t : SignalType) (m : ℚ) : 0 ≤ scoreSignal t m := by
  cases t <;> exact clampScore_nonneg _

theorem scoreSignal_le_100 (t : SignalType) (m : ℚ) : scoreSignal t m ≤ 100 := by
  cases t <;> exact clampScore_le_100 _

theorem scoreSignal_pos (t : SignalType) {m : ℚ} (h : 0 < m) :
    0 < scoreSignal t m := by
  cases t <;> exact clampScore_pos (by linarith)

theorem scoreSignal_mono (t : SignalType) {a b : ℚ} (h : a ≤ b) :
    scoreSignal t a ≤ scoreSignal t b := by
  cases t <;> exact clampScore_mono (by linarith)

/-!
## Detector lemmas
-/

theorem detectVolumeSpike_shape {cfg : DetectorConfig} {b : BaselineStats}
    {s : MarketSnapshot} {d : RawDetection}
    (h : detectVolumeSpike cfg b s = some d) :
    d.sigType = .volume_spike ∧ detailsMatchType d.sigType d.details = true := by
  unfold detectVolumeSpike at h
  split_ifs at h <;> simp only [Option.some.injEq] at h <;> subst h <;>
    exact ⟨rfl, rfl⟩

theorem detectVolumeSpike_pos {cfg : DetectorConfig} {b : BaselineStats}
    {s : MarketSnapshot} {d : RawDetection} (hval : cfg.valid)
    (hstd : 0 ≤ b.std_volume) (h : detectVolumeSpike cfg b s = some d) :
    0 < d.magnitude := by
  obtain ⟨hthr, -, -, -, -, -, -, -, hfloor, -, -, -⟩ := hval
  unfold detectVolumeSpike at h
  split_ifs at h with h0 h1 h2 <;>
    simp only [Option.some.injEq] at h
  · subst h
    exact div_pos (by linarith [h1.1]) hfloor
  · subst h
    have hstd' : 0 < b.std_volume := lt_of_le_of_ne hstd (Ne.symm h0)
    refine div_pos ?_ hstd'
    nlinarith [h2.1]

theorem detectOrderbookImbalance_shape {cfg : DetectorConfig}
    {s : MarketSnapshot} {d : RawDetection}
    (h : detectOrderbookImbalance cfg s = some d) :
    d.sigType = .orderbook_imbalance ∧
    detailsMatchType d.sigType d.details = true := by
  simp only [detectOrderbookImbalance] at h
  split at h
  case isTrue hc =>
    simp only [Option.some.injEq] at h
    subst h
    exact ⟨rfl, rfl⟩
  case isFalse hc => exact absurd h (by simp)

theorem detectOrderbookImbalance_pos {cfg : DetectorConfig}
    {s : MarketSnapshot} {d : RawDetection} (hval : cfg.valid)
    (h : detectOrderbookImbalance cfg s = some d) : 0 < d.magnitude := by
  obtain ⟨-, -, hthr, -, -, -, -, -, -, -, -, -⟩ := hval
  simp only [detectOrderbookImbalance] at h
  split at h
  case isTrue hc =>
    simp only [Option.some.injEq] at h
    subst h
    exact lt_of_lt_of_le hthr hc.1
  case isFalse hc => exact absurd h (by simp)

theorem detectPriceDivergence_shape {cfg : DetectorConfig}
    {s p : MarketSnapshot} {d : RawDetection}
    (h : detectPriceDivergence cfg s p = some d) :
    d.sigType = .price_divergence ∧
    detailsMatchType d.sigType d.details = true := by
  simp only [detectPriceDivergence] at h
  split at h
  case isTrue hc =>
    simp only [Option.some.injEq] at h
    subst h
    exact ⟨rfl, rfl⟩
  case isFalse hc =>
    split at h
    case isTrue hc2 =>
      simp only [Option.some.injEq] at h
      subst h
      exact ⟨rfl, rfl⟩
    case isFalse hc2 => exact absurd h (by simp)

theorem detectPriceDivergence_pos {cfg : DetectorConfig}
    {s p : MarketSnapshot} {d : RawDetection} (hval : cfg.valid)
    (h : detectPriceDivergence cfg s p = some d) : 0 < d.magnitude := by
  obtain ⟨-, -, -, -, hpct, -, -, -, -, -, hsurge, -⟩ := hval
  simp only [detectPriceDivergence] at h
  split at h
  case isTrue hc =>
    simp only [Option.some.injEq] at h
    subst h
    exact lt_of_lt_of_le hpct hc.1
  case isFalse hc =>
    split at h
    case isTrue hc2 =>
      simp only [Option.some.injEq] at h
      subst h
      exact lt_trans hsurge hc2.1
    case isFalse hc2 => exact absurd h (by simp)

/-!
## The claims
-/

/-- Claim C2: The Volume Spike detector fires exactly when
`current_volume > mean_volume + threshold_multiplier * std_volume` and
`current_volume ≥ volume_minimum` (for a genuine, positive std); and on
spec §8's example — baseline mean 30000, std 10000, defaults
threshold 2.5 and minimum 10000, current volume 125000 — it fires with
z-score `(125000 - 30000) / 10000 = 9.5`. -/
theorem volumeSpike_fires_iff_and_example :
    (∀ (cfg : DetectorConfig) (b : BaselineStats) (s : MarketSnapshot),
      0 < b.std_volume →
      (detectVolumeSpike cfg b s ≠ none ↔
        b.mean_volume + cfg.volume_spike_threshold * b.std_volume < s.volume ∧
        cfg.volume_minimum ≤ s.volume)) ∧
    detectVolumeSpike defaultConfig statsSpec snapVol125 =
      some ⟨.volume_spike, (125000 - 30000) / 10000,
        .volumeSpike 125000 30000 ((125000 - 30000) / 10000)⟩ ∧
    (125000 - 30000 : ℚ) / 10000 = 19 / 2 := by
  refine ⟨?_, ?_, by norm_num⟩
  · intro cfg b s hstd
    unfold detectVolumeSpike
    rw [if_neg hstd.ne']
    split_ifs with hc
    · simpa using hc
    · simpa using hc
  · simp only [detectVolumeSpike, defaultConfig, statsSpec, snapVol125]
    norm_num

/-- Witness for C2: The fire condition applied at the §8 example inputs. -/
theorem volumeSpike_fires_iff_witness :
    detectVolumeSpike defaultConfig statsSpec snapVol125 ≠ none ↔
      statsSpec.mean_volume +
          defaultConfig.volume_spike_threshold * statsSpec.std_volume <
        snapVol125.volume ∧
      defaultConfig.volume_minimum ≤ snapVol125.volume :=
  volumeSpike_fires_iff_and_example.1 defaultConfig statsSpec snapVol125
    (by norm_num [statsSpec])

/-- Claim C4: The Signal Scorer is, for every detector type, a monotonic
capped mapping into `[0, 100]` (purity is inherent: `scoreSignal` is a
function of the type and raw magnitude alone); and the score for
`current_volume = 125000` under spec §8's baseline is strictly greater
than the score for `current_volume = 80000`. -/
theorem scoreSignal_monotone_capped_and_example :
    (∀ (t : SignalType) (a b : ℚ), a ≤ b → scoreSignal t a ≤ scoreSignal t b) ∧
    (∀ (t : SignalType) (m : ℚ),
      0 ≤ scoreSignal t m ∧ scoreSignal t m ≤ 100) ∧
    scoreSignal .volume_spike ((125000 - 30000) / 10000) >
      scoreSignal .volume_spike ((80000 - 30000) / 10000) := by
  refine ⟨fun t a b h => scoreSignal_mono t h,
    fun t m => ⟨scoreSignal_nonneg t m, scoreSignal_le_100 t m⟩, ?_⟩
  show clampScore _ > clampScore _
  unfold clampScore
  norm_num

/-- Witness for C4: Monotonicity applied at the magnitudes of the two §8
example volumes. -/
theorem scoreSignal_monotone_witness :
    scoreSignal .volume_spike ((80000 - 30000) / 10000) ≤
      scoreSignal .volume_spike ((125000 - 30000) / 10000) :=
  scoreSignal_monotone_capped_and_example.1 .volume_spike _ _ (by norm_num)

/-- Claim C7: The Orderbook Imbalance detector computes
`ratio = max(bid, ask) / max(min(bid, ask), epsilon)` and fires exactly
when `ratio ≥ imbalance_threshold` and the larger side is at least
`imbalance_minimum`; on spec §8's example — bid 50000, ask 5000, defaults
threshold 3.0 and minimum 5000 — the ratio is 10 and it fires with
direction `"bid"`. -/
theorem orderbookImbalance_fires_iff_and_example :
    (∀ (cfg : DetectorConfig) (s : MarketSnapshot),
      detectOrderbookImbalance cfg s ≠ none ↔
        cfg.imbalance_threshold ≤
            max s.bid_depth s.ask_depth /
              max (min s.bid_depth s.ask_depth) cfg.epsilon ∧
        cfg.imbalance_minimum ≤ max s.bid_depth s.ask_depth) ∧
    detectOrderbookImbalance defaultConfig snapImb =
      some ⟨.orderbook_imbalance, 10,
        .orderbookImbalance "bid" 10 50000 5000⟩ := by
  constructor
  · intro cfg s
    simp only [detectOrderbookImbalance]
    split
    case isTrue hc => exact iff_of_true (by simp) hc
    case isFalse hc => exact iff_of_false (by simp) hc
  · simp only [detectOrderbookImbalance, defaultConfig, snapImb]
    norm_num

/-- Claim C10: `formatVolume` renders `$X.XM` exactly for volumes
`≥ 1,000,000`, `$X.XK` exactly for volumes in `[1,000, 1,000,000)`, and
plain rounded dollars otherwise — so exactly 1,000 formats as `"$1.0K"`,
not `"$1000"`. -/
theorem formatVolume_intervals_and_boundary :
    (∀ v : ℚ, formatVolume v = formatVolumeByIntervals v) ∧
    formatVolume 1000 = "$1.0K" ∧ formatVolume 1000 ≠ "$1000" := by
  refine ⟨?_, ?_, ?_⟩
  · intro v
    unfold formatVolume formatVolumeByIntervals
    split_ifs with h1 h2 h3 h4 <;> first
      | rfl
      | (exfalso; first | exact h3 ⟨h2, by linarith⟩ | exact h2 h4.1)
  · norm_num [formatVolume, toFixed1, toFixedInt]
    rfl
  · norm_num [formatVolume, toFixed1, toFixedInt]
    decide

/-- Every Signal in an evaluation cycle's output is the scored record of
one fired detector. -/
theorem evaluateSnapshot_mem {cfg : DetectorConfig} {ob : Option BaselineStats}
    {s : MarketSnapshot} {start : Option MarketSnapshot} {sig : Signal}
    (h : sig ∈ evaluateSnapshot cfg ob s start) :
    ∃ b d, ob = some b ∧ sig = mkSignal s d ∧
      (detectVolumeSpike cfg b s = some d ∨
       detectOrderbookImbalance cfg s = some d ∨
       ∃ p, start = some p ∧ detectPriceDivergence cfg s p = some d) := by
  cases ob with
  | none => simp [evaluateSnapshot] at h
  | some b =>
    refine ⟨b, ?_⟩
    simp only [evaluateSnapshot, List.mem_map, List.mem_filterMap, id_eq] at h
    obtain ⟨d, ⟨o, ho, rfl⟩, rfl⟩ := h
    simp only [List.mem_cons, List.not_mem_nil, or_false] at ho
    refine ⟨d, rfl, rfl, ?_⟩
    rcases ho with h1 | h2 | h3
    · exact Or.inl h1.symm
    · exact Or.inr (Or.inl h2.symm)
    · cases start with
      | none => simp at h3
      | some p => exact Or.inr (Or.inr ⟨p, rfl, by simpa using h3.symm⟩)

/-- Claim C1: Every Signal the evaluation cycle emits has a score in
`[0, 100]`, and never a zero score: a detector that does not fire
contributes no Signal at all (non-fired detectors return `none` and are
filtered out before scoring), and every fired detector has a strictly
positive raw magnitude under a valid configuration, hence a strictly
positive score. -/
theorem signal_scores_bounded_and_nonzero :
    ∀ (cfg : DetectorConfig) (ob : Option BaselineStats) (s : MarketSnapshot)
      (start : Option MarketSnapshot), cfg.valid → statsNonneg ob →
      ∀ sig ∈ evaluateSnapshot cfg ob s start,
        0 ≤ sig.score ∧ sig.score ≤ 100 ∧ sig.score ≠ 0 := by
  intro cfg ob s start hval hnn sig hmem
  obtain ⟨b, d, rfl, rfl, hd⟩ := evaluateSnapshot_mem hmem
  have hnn' : 0 ≤ b.std_volume := hnn
  have hpos : 0 < d.magnitude := by
    rcases hd with h1 | h2 | ⟨p, -, h3⟩
    · exact detectVolumeSpike_pos hval hnn' h1
    · exact detectOrderbookImbalance_pos hval h2
    · exact detectPriceDivergence_pos hval h3
  exact ⟨scoreSignal_nonneg _ _, scoreSignal_le_100 _ _,
    (scoreSignal_pos _ hpos).ne'⟩

/-- Witness for C1: The score bounds at the §8 example: the emitted
volume-spike Signal (score 95) is in `(0, 100]`. -/
theorem signal_scores_bounded_witness :
    0 ≤ sigSpike.score ∧ sigSpike.score ≤ 100 ∧ sigSpike.score ≠ 0 := by
  have hmem : sigSpike ∈
      evaluateSnapshot defaultConfig (some statsSpec) snapVol125 none := by
    have heval : evaluateSnapshot defaultConfig (some statsSpec) snapVol125 none
        = [sigSpike] := by
      simp only [evaluateSnapshot, detectVolumeSpike, detectOrderbookImbalance,
        defaultConfig, statsSpec, snapVol125, sigSpike, mkSignal, scoreSignal,
        clampScore, Option.bind]
      norm_num [List.filterMap, min_def, max_def, mkSignal, scoreSignal,
        clampScore]
    rw [heval]
    exact List.mem_singleton.mpr rfl
  exact signal_scores_bounded_and_nonzero defaultConfig (some statsSpec)
    snapVol125 none (by norm_num [DetectorConfig.valid, defaultConfig])
    (by norm_num [statsNonneg, statsSpec]) sigSpike hmem

/-- Claim C9: Every emitted Signal is tagged with one of the three type
values, and its details payload is the fixed-shape variant belonging to
that type: current_volume/mean_volume/z_score for volume spikes,
direction/ratio/bid_depth/ask_depth for orderbook imbalances,
divergence_type and the change percentages for price divergences. -/
theorem signal_details_match_type :
    ∀ (cfg : DetectorConfig) (ob : Option BaselineStats) (s : MarketSnapshot)
      (start : Option MarketSnapshot),
      ∀ sig ∈ evaluateSnapshot cfg ob s start,
        detailsMatchType sig.signal_type sig.details = true := by
  intro cfg ob s start sig hmem
  obtain ⟨b, d, rfl, rfl, hd⟩ := evaluateSnapshot_mem hmem
  have : detailsMatchType d.sigType d.details = true := by
    rcases hd with h1 | h2 | ⟨p, -, h3⟩
    · exact (detectVolumeSpike_shape h1).2
    · exact (detectOrderbookImbalance_shape h2).2
    · exact (detectPriceDivergence_shape h3).2
  exact this

/-- Witness for C9: The §8 example's emitted Signal is tagged
`volume_spike` and carries the `volumeSpike` details variant. -/
theorem signal_details_match_type_witness :
    detailsMatchType sigSpike.signal_type sigSpike.details = true := by
  have hmem : sigSpike ∈
      evaluateSnapshot defaultConfig (some statsSpec) snapVol125 none := by
    have heval : evaluateSnapshot defaultConfig (some statsSpec) snapVol125 none
        = [sigSpike] := by
      simp only [evaluateSnapshot, detectVolumeSpike, detectOrderbookImbalance,
        defaultConfig, statsSpec, snapVol125, sigSpike, mkSignal, scoreSignal,
        clampScore, Option.bind]
      norm_num [List.filterMap, min_def, max_def, mkSignal, scoreSignal,
        clampScore]
    rw [heval]
    exact List.mem_singleton.mpr rfl
  exact signal_details_match_type defaultConfig (some statsSpec) snapVol125
    none sigSpike hmem

/-- Claim C5: A snapshot older than the baseline's last-seen timestamp for
its market is dropped: the update reports `OutOfOrderSnapshot` and
returns the store — hence that market's baseline, and every other —
completely unchanged. -/
theorem outOfOrder_rejected :
    ∀ (cfg : DetectorConfig) (store : BaselineStore) (s : MarketSnapshot)
      (b : RollingBaseline), findBaseline store s.market_id = some b →
      s.timestamp < b.last_timestamp →
      updateStore cfg store s = (.error .outOfOrderSnapshot, store) := by
  intro cfg store s b hf ht
  simp [updateStore, hf, ht]

/-- Witness for C5: The stale snapshot at timestamp 50 against a baseline
last updated at 100 is rejected and the store is unchanged. -/
theorem outOfOrder_rejected_witness :
    updateStore defaultConfig storeOne snapT50 =
      (.error .outOfOrderSnapshot, storeOne) :=
  outOfOrder_rejected defaultConfig storeOne snapT50
    (newBaseline defaultConfig snapT100) rfl
    (by norm_num [newBaseline, updateBaseline, snapT100, snapT50])

/-- Claim C8: An update for a new market beyond the configured tracking
limit is rejected with `CapacityExceeded` and returns the store
unchanged: no baseline is created and no existing baseline is evicted or
modified. -/
theorem capacity_rejected :
    ∀ (cfg : DetectorConfig) (store : BaselineStore) (s : MarketSnapshot),
      findBaseline store s.market_id = none →
      cfg.max_tracked_markets ≤ store.length →
      updateStore cfg store s = (.error .capacityExceeded, store) := by
  intro cfg store s hf hc
  simp [updateStore, hf, hc]

/-- Witness for C8: With the limit lowered to one tracked market, a
snapshot for a second market is rejected and the store is unchanged. -/
theorem capacity_rejected_witness :
    updateStore smallConfig storeOne snapM2 =
      (.error .capacityExceeded, storeOne) :=
  capacity_rejected smallConfig storeOne snapM2 rfl
    (by norm_num [smallConfig, storeOne])

/-- Claim C6: For a market whose baseline has fewer than `minimum_samples`
samples, the store's `get` returns Unavailable (`none`), and the
evaluation pipeline for that market emits no Signal at all — whatever the
snapshot (and hence however extreme the raw anomaly magnitude), and
whatever square root is used to derive the std. -/
theorem minimum_samples_guard :
    ∀ (cfg : DetectorConfig) (store : BaselineStore) (id : String)
      (b : RollingBaseline), findBaseline store id = some b →
      b.volStats.count < cfg.minimum_samples →
      getBaseline cfg store id = none ∧
      ∀ (sqrtFn : ℚ → ℚ) (s : MarketSnapshot) (start : Option MarketSnapshot),
        s.market_id = id → evaluateWithStore sqrtFn cfg store s start = [] := by
  intro cfg store id b hf hc
  have hget : getBaseline cfg store id = none := by
    simp [getBaseline, hf, hc]
  refine ⟨hget, fun sqrtFn s start hs => ?_⟩
  rw [evaluateWithStore, hs, hget]
  rfl

/-- Witness for C6: The one-sample baseline (1 < 5 samples) is
Unavailable and an extreme snapshot for that market emits nothing. -/
theorem minimum_samples_guard_witness :
    getBaseline defaultConfig storeOne "m1" = none ∧
      evaluateWithStore (fun _ => 0) defaultConfig storeOne snapT100 none = [] := by
  have h := minimum_samples_guard defaultConfig storeOne "m1"
    (newBaseline defaultConfig snapT100) rfl
    (by norm_num [newBaseline, updateBaseline, evictLoop, welfordAdd,
      WelfordState.zero, defaultConfig])
  exact ⟨h.1, h.2 (fun _ => 0) snapT100 none rfl⟩


/-!
## C3: the incremental statistics refine the from-scratch statistics
-/

theorem sumSq_nil : sumSq [] = 0 := rfl

theorem sumSq_cons (x : ℚ) (xs : List ℚ) : sumSq (x :: xs) = x * x + sumSq xs := by
  simp [sumSq]

theorem sumSq_append (xs : List ℚ) (x : ℚ) :
    sumSq (xs ++ [x]) = sumSq xs + x * x := by
  simp [sumSq]

theorem tracks_nil : Tracks [] WelfordState.zero := by
  refine ⟨rfl, ?_, ?_⟩ <;> simp [WelfordState.zero, sumSq]

/-- Welford's insertion step preserves agreement with the window. -/
theorem tracks_add {xs : List ℚ} {st : WelfordState} (h : Tracks xs st)
    (x : ℚ) : Tracks (xs ++ [x]) (welfordAdd st x) := by
  obtain ⟨hc, hm, h2⟩ := h
  by_cases hnil : xs = []
  · subst hnil
    simp only [List.length_nil, List.sum_nil, Nat.cast_zero, div_zero,
      sumSq_nil] at hc hm h2
    refine ⟨?_, ?_, ?_⟩ <;>
      simp [welfordAdd, hc, hm, h2, sumSq, List.sum_append]
    ring
  · have hlen0 : xs.length ≠ 0 := fun h0 => hnil (List.length_eq_zero.mp h0)
    have hn : ((xs.length : ℚ)) ≠ 0 := Nat.cast_ne_zero.mpr hlen0
    have hn1 : ((xs.length : ℚ) + 1) ≠ 0 := by positivity
    refine ⟨?_, ?_, ?_⟩
    · simp [welfordAdd, hc]
    · simp only [welfordAdd, hc, hm, List.sum_append, List.length_append,
        List.sum_cons, List.sum_nil, List.length_cons, List.length_nil]
      push_cast
      field_simp
      ring
    · simp only [welfordAdd, hc, hm, h2, sumSq_append, List.sum_append,
        List.length_append, List.sum_cons, List.sum_nil, List.length_cons,
        List.length_nil]
      push_cast
      field_simp
      ring

/-- The matching incremental removal preserves agreement with the window. -/
theorem tracks_remove {x : ℚ} {xs : List ℚ} {st : WelfordState}
    (h : Tracks (x :: xs) st) : Tracks xs (welfordRemove st x) := by
  obtain ⟨hc, hm, h2⟩ := h
  have hc' : st.count = xs.length + 1 := by simpa using hc
  simp only [List.sum_cons, List.length_cons, sumSq_cons] at hm h2
  by_cases hnil : xs = []
  · subst hnil
    have hle : st.count ≤ 1 := by simp [hc']
    simpa [welfordRemove, hle] using tracks_nil
  · have hlen0 : xs.length ≠ 0 := fun h0 => hnil (List.length_eq_zero.mp h0)
    have hgt : ¬ st.count ≤ 1 := by rw [hc']; omega
    have hn : ((xs.length : ℚ)) ≠ 0 := Nat.cast_ne_zero.mpr hlen0
    have hn1 : ((xs.length : ℚ) + 1) ≠ 0 := by positivity
    unfold welfordRemove
    rw [if_neg hgt]
    simp only [hc', Nat.add_sub_cancel]
    refine ⟨rfl, ?_, ?_⟩
    · show (((xs.length + 1 : ℕ) : ℚ) * st.mean - x) / (xs.length : ℚ) =
        xs.sum / (xs.length : ℚ)
      rw [hm]
      push_cast
      field_simp
    · show st.m2 - (x - st.mean) *
          (x - (((xs.length + 1 : ℕ) : ℚ) * st.mean - x) / (xs.length : ℚ)) =
        sumSq xs - xs.sum ^ 2 / (xs.length : ℚ)
      rw [hm, h2]
      push_cast
      field_simp
      ring

/-- Evicting old samples from the front of the window preserves
agreement between the retained window and the volume statistics. -/
theorem tracks_evict (c : ℚ) (l : List Sample) :
    ∀ (v p : WelfordState), Tracks (l.map Sample.volume) v →
      Tracks ((evictLoop c l v p).1.map Sample.volume)
        (evictLoop c l v p).2.1 := by
  induction l with
  | nil => intro v p h; simpa [evictLoop] using h
  | cons s rest ih =>
      intro v p h
      by_cases hc : s.timestamp < c
      · simp only [evictLoop, if_pos hc]
        exact ih _ _ (tracks_remove h)
      · simp only [evictLoop, if_neg hc]
        exact h

/-- One accepted baseline update preserves agreement. -/
theorem tracks_update (cfg : DetectorConfig) (s : MarketSnapshot)
    {b : RollingBaseline} (h : Tracks (retainedVolumes b) b.volStats) :
    Tracks (retainedVolumes (updateBaseline cfg b s))
      (updateBaseline cfg b s).volStats := by
  simp only [updateBaseline, retainedVolumes, List.map_append]
  exact tracks_add (tracks_evict _ _ _ _ h) s.volume

/-- A fresh baseline agrees with its one-sample window. -/
theorem tracks_new (cfg : DetectorConfig) (s : MarketSnapshot) :
    Tracks (retainedVolumes (newBaseline cfg s))
      (newBaseline cfg s).volStats :=
  tracks_update cfg s (by simpa [retainedVolumes] using tracks_nil)

/-- Every baseline in the store agrees with its retained window. -/
def StoreOk (store : BaselineStore) : Prop :=
  ∀ p ∈ store, Tracks (retainedVolumes p.2) p.2.volStats

theorem findBaseline_ok {store : BaselineStore} {id : String}
    {b : RollingBaseline} (hok : StoreOk store)
    (h : findBaseline store id = some b) :
    Tracks (retainedVolumes b) b.volStats := by
  induction store with
  | nil => simp [findBaseline] at h
  | cons p rest ih =>
      obtain ⟨k, b2⟩ := p
      simp only [findBaseline] at h
      split at h
      · cases h
        exact hok (k, b) (List.mem_cons_self _ _)
      · exact ih (fun q hq => hok q (List.mem_cons_of_mem _ hq)) h

theorem setBaseline_ok {store : BaselineStore} {id : String}
    {b2 : RollingBaseline} (hok : StoreOk store)
    (hb : Tracks (retainedVolumes b2) b2.volStats) :
    StoreOk (setBaseline store id b2) := by
  induction store with
  | nil => intro q hq; simp [setBaseline] at hq
  | cons p rest ih =>
      obtain ⟨k, b3⟩ := p
      intro q hq
      simp only [setBaseline] at hq
      split at hq
      · rcases List.mem_cons.mp hq with rfl | hq2
        · exact hb
        · exact hok q (List.mem_cons_of_mem _ hq2)
      · rcases List.mem_cons.mp hq with rfl | hq2
        · exact hok (k, b3) (List.mem_cons_self _ _)
        · exact ih (fun r hr => hok r (List.mem_cons_of_mem _ hr)) q hq2

theorem updateStore_ok (cfg : DetectorConfig) {store : BaselineStore}
    (s : MarketSnapshot) (hok : StoreOk store) :
    StoreOk (updateStore cfg store s).2 := by
  unfold updateStore
  cases hf : findBaseline store s.market_id with
  | some b =>
      dsimp only
      split
      · exact hok
      · exact setBaseline_ok hok (tracks_update cfg s (findBaseline_ok hok hf))
  | none =>
      dsimp only
      split
      · exact hok
      · intro q hq
        rcases List.mem_append.mp hq with hq2 | hq2
        · exact hok q hq2
        · rcases List.mem_singleton.mp hq2 with rfl
          exact tracks_new cfg s

theorem runUpdates_ok (cfg : DetectorConfig) (snaps : List MarketSnapshot) :
    ∀ store, StoreOk store → StoreOk (runUpdates cfg store snaps) := by
  induction snaps with
  | nil => intro store h; exact h
  | cons s rest ih =>
      intro store h
      simp only [runUpdates, List.foldl_cons]
      exact ih _ (updateStore_ok cfg s h)

theorem sum_sq_dev (mu : ℚ) (xs : List ℚ) :
    (xs.map (fun x => (x - mu) ^ 2)).sum =
      sumSq xs - 2 * mu * xs.sum + xs.length * mu ^ 2 := by
  induction xs with
  | nil => simp [sumSq]
  | cons y ys ih =>
      simp only [List.map_cons, List.sum_cons, sumSq_cons, List.length_cons,
        ih]
      push_cast
      ring

/-- The from-scratch variance in closed form. -/
theorem listVariance_eq (xs : List ℚ) :
    listVariance xs = (sumSq xs - xs.sum ^ 2 / xs.length) / xs.length := by
  unfold listVariance listMean
  by_cases hnil : xs = []
  · subst hnil; simp [sumSq]
  · have hn : ((xs.length : ℚ)) ≠ 0 :=
      Nat.cast_ne_zero.mpr (fun h0 => hnil (List.length_eq_zero.mp h0))
    rw [sum_sq_dev]
    field_simp
    ring

/-- Claim C3: After any sequence of updates driven through the store (each
accepted update doing a Welford-style insertion plus incremental removal
on eviction, rejected updates leaving the store unchanged), every
tracked market's incrementally maintained mean and variance equal the
from-scratch mean and variance recomputed over the same retained window
— exactly, in the rational model of the float arithmetic. -/
theorem baseline_matches_from_scratch :
    ∀ (cfg : DetectorConfig) (snaps : List MarketSnapshot) (id : String),
      match findBaseline (runUpdates cfg emptyStore snaps) id with
      | none => True
      | some b =>
          b.volStats.mean = listMean (retainedVolumes b) ∧
          b.volStats.count = (retainedVolumes b).length ∧
          baselineVariance b = listVariance (retainedVolumes b) := by
  intro cfg snaps id
  cases hf : findBaseline (runUpdates cfg emptyStore snaps) id with
  | none => trivial
  | some b =>
      have hok : StoreOk (runUpdates cfg emptyStore snaps) :=
        runUpdates_ok cfg snaps emptyStore (by intro q hq; simp [emptyStore] at hq)
      obtain ⟨hc, hm, h2⟩ := findBaseline_ok hok hf
      refine ⟨hm, hc, ?_⟩
      unfold baselineVariance
      rw [h2, hc, listVariance_eq]



/-- Witness for C3: the invariant evaluated at a concrete one-update run. -/
theorem baseline_matches_from_scratch_witness :
    match findBaseline (runUpdates defaultConfig emptyStore [snapT100]) "m1" with
    | none => True
    | some b =>
        b.volStats.mean = listMean (retainedVolumes b) ∧
        b.volStats.count = (retainedVolumes b).length ∧
        baselineVariance b = listVariance (retainedVolumes b) :=
  baseline_matches_from_scratch defaultConfig [snapT100] "m1"

/-- Witness for C7: the fire condition at the §8 example inputs. -/
theorem orderbookImbalance_fires_iff_witness :
    detectOrderbookImbalance defaultConfig snapImb ≠ none ↔
      defaultConfig.imbalance_threshold ≤
          max snapImb.bid_depth snapImb.ask_depth /
            max (min snapImb.bid_depth snapImb.ask_depth)
              defaultConfig.epsilon ∧
      defaultConfig.imbalance_minimum ≤
        max snapImb.bid_depth snapImb.ask_depth :=
  orderbookImbalance_fires_iff_and_example.1 defaultConfig snapImb

/-- Witness for C10: the branch agreement evaluated at a sub-thousand
volume. -/
theorem formatVolume_intervals_witness :
    formatVolume 500 = formatVolumeByIntervals 500 :=
  formatVolume_intervals_and_boundary.1 500


end Polygraph
